import Mathlib

/-!
Shallow embedding of `globe_15_quakes.py` (rotating Earth earthquake
visualization).  The script has three stages: a data fetch with a
catch-all fallback, a per-frame renderer working on a shared matplotlib
axes object, and an encoder driving 1200 frames into an MP4 file.

JSON values (as delivered by `response.json()`) are modelled by the
inductive `Json`; Python floats are modelled by `ℚ`; Python `dict`
subscripting and `list` indexing, which raise on missing keys / wrong
types, are modelled by `Option`-returning accessors; the `try/except`
of `fetch_earthquake_data` becomes a `match` on the `Option` result.
-/

/-- A JSON value as produced by `response.json()`.  Numbers are modelled
exactly by rationals; object fields keep their insertion order. -/
inductive Json where
  | null : Json
  | num : ℚ → Json
  | str : String → Json
  | arr : List Json → Json
  | obj : List (String × Json) → Json

/-- Lookup of a key in an object's field list (Python `d[key]`,
first binding wins; parsed JSON objects have distinct keys). -/
def lookupField : List (String × Json) → String → Option Json
  | [], _ => none
  | (k, v) :: rest, key => if k = key then some v else lookupField rest key

/-- Python `x[key]` for a string key: succeeds only on objects that carry
the key; anything else raises (`TypeError` / `KeyError`), modelled `none`. -/
def Json.getField : Json → String → Option Json
  | .obj fs, key => lookupField fs key
  | _, _ => none

/-- Python `x[i]` for a non-negative integer index: succeeds only on an
array that is long enough, else raises (`TypeError` / `IndexError`). -/
def Json.getIdx : Json → Nat → Option Json
  | .arr xs, i => xs.get? i
  | _, _ => none

/-- Whether the value is a JSON number. -/
def Json.isNum : Json → Bool
  | .num _ => true
  | _ => false

/-- The access path `q["properties"]["mag"]` of the source. -/
def featMag (q : Json) : Option Json :=
  (q.getField "properties").bind fun p => p.getField "mag"

/-- The access path `q["geometry"]["coordinates"][1]` of the source. -/
def featLat (q : Json) : Option Json :=
  ((q.getField "geometry").bind fun g => g.getField "coordinates").bind
    fun c => c.getIdx 1

/-- The access path `q["geometry"]["coordinates"][0]` of the source. -/
def featLon (q : Json) : Option Json :=
  ((q.getField "geometry").bind fun g => g.getField "coordinates").bind
    fun c => c.getIdx 0

/-- The access path `q["properties"]["place"]` of the source. -/
def featPlace (q : Json) : Option Json :=
  (q.getField "properties").bind fun p => p.getField "place"

/-- One earthquake record, exactly the dict built per feature in
`fetch_earthquake_data` — values are stored verbatim, so the fields keep
the `Json` type (a `null` magnitude is stored as `Json.null`). -/
structure Quake where
  magnitude : Json
  latitude : Json
  longitude : Json
  place : Json

/-- Building one record from one feature: any missing key / wrong shape
raises inside the `try`, modelled by `none`. -/
def parseQuake (q : Json) : Option Quake :=
  match featMag q, featLat q, featLon q, featPlace q with
  | some m, some la, some lo, some pl => some ⟨m, la, lo, pl⟩
  | _, _, _, _ => none

/-- The `for q in data` loop: one record appended per feature, aborting
the whole `try` block on the first failure. -/
def parseQuakes : List Json → Option (List Quake)
  | [] => some []
  | q :: rest =>
    match parseQuake q, parseQuakes rest with
    | some r, some rs => some (r :: rs)
    | _, _ => none

/-- `response.json()["features"]` followed by the record loop.  A
response without a `features` array raises inside the `try`. -/
def parseFeed (data : Json) : Option (List Quake) :=
  match data.getField "features" with
  | some (.arr fs) => parseQuakes fs
  | _ => none

/-- The diagnostic printed by the `except` branch. -/
def failNotice : String := "Failed to fetch earthquake data. Using sample data."

/-- The hardcoded sample data of the `except` branch. -/
def fallbackQuakes : List Quake :=
  [ ⟨.num 5.2, .num 35.0, .num (-120.0), .str "Sample 1"⟩,
    ⟨.num 6.1, .num (-10.0), .num 160.0, .str "Sample 2"⟩,
    ⟨.num 4.8, .num 40.0, .num 30.0, .str "Sample 3"⟩ ]

/-- `fetch_earthquake_data` with its print effect made explicit: the
input is the fetched-and-decoded response (`none` models a network or
JSON-decode failure), the output is the returned record list together
with the lines printed to stdout. -/
def fetchRun (resp : Option Json) : List Quake × List String :=
  match resp with
  | some data =>
    match parseFeed data with
    | some qs => (qs, [])
    | none => (fallbackQuakes, [failNotice])
  | none => (fallbackQuakes, [failNotice])

/-- The value returned to the caller by `fetch_earthquake_data`. -/
def fetch_earthquake_data (resp : Option Json) : List Quake :=
  (fetchRun resp).1

/-!
Rotation model (source lines 80–81).  Python's `%` on floats is the
floor-based modulus `a - b * ⌊a / b⌋`, non-negative for positive `b`.
-/

/-- Python float modulus `a % b` (floor convention). -/
def pymod (a b : ℚ) : ℚ := a - b * ⌊a / b⌋

/-- The per-frame rotation delta `-0.5` of `frame * -0.5`. -/
def rotDelta : ℚ := -0.5

/-- `lon0 = (frame * -0.5) % 360` (source line 80). -/
def lon0 (frame : ℕ) : ℚ := pymod ((frame : ℚ) * rotDelta) 360

/-- The fixed base offset `140` added to `lon0` (source line 81). -/
def baseLongitude : ℚ := 140

/-- `central_longitude = lon0 + 140` of the per-frame projection. -/
def centralLongitude (frame : ℕ) : ℚ := lon0 frame + baseLongitude

/-- `central_latitude = 20` of the per-frame projection. -/
def centralLatitude : ℚ := 20

/-- Number of frames passed to `FuncAnimation` (source line 165). -/
def animationFrames : ℕ := 1200

/-!
Marker encoding (source lines 113–129).
-/

/-- `size = max(5, mag * 8) / 10` (source line 113). -/
def markerSize (mag : ℚ) : ℚ := max 5 (mag * 8) / 10

/-- The `if mag < 5.0 / elif mag < 6.0 / else` colour cascade
(source lines 116–121). -/
def quakeColor (mag : ℚ) : String :=
  if mag < 5.0 then "yellow" else if mag < 6.0 then "orange" else "red"

/-- `max(5, mag * 8) / 10` evaluated on the stored JSON magnitude:
Python raises `TypeError` on `mag * 8` unless `mag` is a number. -/
def sizeOfMag : Json → Option ℚ
  | .num m => some (markerSize m)
  | _ => none

/-- The colour cascade evaluated on the stored JSON magnitude: Python
raises `TypeError` on `mag < 5.0` unless `mag` is a number. -/
def colorOfMag : Json → Option String
  | .num m => some (quakeColor m)
  | _ => none

/-!
The drawing surface.  One frame of `animate` is modelled as a clear
phase on the shared axes state followed by a sequence of draw calls;
each draw call is recorded with the literal parameters of the source.
-/

/-- One drawing primitive issued by `animate`. -/
inductive DrawCall where
  | circlePatch (cx cy r : ℚ) (edgecolor : String) (linewidth alpha : ℚ) (zorder : ℕ)
  | mapFeature (feat : String) (facecolor edgecolor : Option String)
      (linewidth : Option ℚ) (zorder : ℕ)
  | plotMarker (lon lat : Json) (color : String) (markersize : ℚ)
      (zorder : ℕ) (alpha : ℚ)
  | textLabel (x y : ℚ) (content : String) (zorder : ℕ)
  | legendCall (entries : List (String × String))

/-- The `zorder` parameter of a draw call (the legend call passes none). -/
def DrawCall.zorderOf : DrawCall → Option ℕ
  | .circlePatch _ _ _ _ _ _ z => some z
  | .mapFeature _ _ _ _ z => some z
  | .plotMarker _ _ _ _ z _ => some z
  | .textLabel _ _ _ z => some z
  | .legendCall _ => none

/-- Whether a call is an `ax.plot` marker call. -/
def DrawCall.isMarkerCall : DrawCall → Bool
  | .plotMarker _ _ _ _ _ _ => true
  | _ => false

/-- The boundary circle (source lines 88–91): radius 0.5, cyan,
linewidth 1.50, alpha 0.9, zorder 10. -/
def boundaryCall : DrawCall := .circlePatch 0.5 0.5 0.5 "cyan" 1.50 0.9 10

/-- The outer glow circle (source lines 94–97): radius 0.55, cyan,
linewidth 0.60, alpha 0.3, zorder 9. -/
def glowCall : DrawCall := .circlePatch 0.5 0.5 0.55 "cyan" 0.60 0.3 9

/-- `ax.add_feature(cfeature.OCEAN, ...)` (source line 100). -/
def oceanCall : DrawCall := .mapFeature "OCEAN" (some "#000000") none none 2

/-- `ax.add_feature(cfeature.LAND, ...)` (source line 101). -/
def landCall : DrawCall := .mapFeature "LAND" (some "#000000") none none 3

/-- `ax.add_feature(cfeature.COASTLINE, ...)` (source line 104). -/
def coastlineCall : DrawCall := .mapFeature "COASTLINE" none (some "cyan") (some 0.5) 4

/-- The f-string of the title (source line 132). -/
def titleText (currentDate : String) : String :=
  "Global Earthquakes (M≥4.5) in the last month - " ++ currentDate

/-- The `ax.text` call of the title (source lines 133–137). -/
def titleCall (currentDate : String) : DrawCall :=
  .textLabel (-0.05) 1.00 (titleText currentDate) 10

/-- The three legend entries (source lines 140–147). -/
def legendEntries : List (String × String) :=
  [("yellow", "M4.5-5.0"), ("orange", "M5.0-6.0"), ("red", "M≥6.0")]

/-- The `ax.legend` call (source lines 150–158). -/
def legendDrawCall : DrawCall := .legendCall legendEntries

/-- The two `ax.plot` calls for one record (source lines 113–129):
size first (`mag * 8` raises on a non-number), then the colour cascade,
then the outer coloured dot (zorder 5, alpha 0.7) and the inner white
dot at one third of the size (zorder 6, alpha 0.9). -/
def quakeMarkerCalls (q : Quake) : Option (List DrawCall) :=
  match sizeOfMag q.magnitude with
  | none => none
  | some size =>
    match colorOfMag q.magnitude with
    | none => none
    | some color =>
      some [ .plotMarker q.longitude q.latitude color size 5 0.7,
             .plotMarker q.longitude q.latitude "white" (size / 3) 6 0.9 ]

/-- The `for quake in earthquakes` loop: marker calls in record order,
aborting the frame (uncaught `TypeError`) on a non-numeric magnitude. -/
def allMarkerCalls : List Quake → Option (List DrawCall)
  | [] => some []
  | q :: rest =>
    match quakeMarkerCalls q, allMarkerCalls rest with
    | some a, some b => some (a ++ b)
    | _, _ => none

/-- The full draw-call sequence of one `animate` call, in source order:
boundary circle, glow circle, ocean, land, coastlines, the per-record
markers, the title, the legend.  The sequence does not depend on the
frame index (only the projection does), hence the unused argument. -/
def drawCalls (qs : List Quake) (currentDate : String) (_frame : ℕ) :
    Option (List DrawCall) :=
  match allMarkerCalls qs with
  | none => none
  | some ms =>
    some ([boundaryCall, glowCall, oceanCall, landCall, coastlineCall]
          ++ ms ++ [titleCall currentDate, legendDrawCall])

/-- The per-frame projection (`ccrs.Orthographic`). -/
structure Projection where
  central_longitude : ℚ
  central_latitude : ℚ

/-- The mutable state of the shared axes object that the script touches:
the five artist lists cleared at the top of `animate` (source lines
64–77), the legend slot (`ax.legend_`, which the loops do not touch and
which `ax.legend(...)` replaces), the projection and the face colour. -/
structure AxesState where
  artists : List DrawCall
  collections : List DrawCall
  patches : List DrawCall
  lines : List DrawCall
  texts : List DrawCall
  legend : Option (List (String × String))
  projection : Projection
  facecolor : String

/-- The clear phase of `animate` (source lines 64–77): every element of
`ax.artists`, `ax.collections`, `ax.patches`, `ax.lines` and `ax.texts`
is removed.  The legend lives in the separate `ax.legend_` slot, which
these loops do not visit. -/
def clearDynamic (s : AxesState) : AxesState :=
  { s with artists := [], collections := [], patches := [], lines := [], texts := [] }

/-- Effect of one draw call on the axes state: `add_patch` appends to
`patches`, `add_feature` to `artists`, `ax.plot` to `lines`, `ax.text`
to `texts`, and `ax.legend` replaces the legend slot. -/
def applyCall (s : AxesState) (c : DrawCall) : AxesState :=
  match c with
  | .circlePatch _ _ _ _ _ _ _ => { s with patches := s.patches ++ [c] }
  | .mapFeature _ _ _ _ _ => { s with artists := s.artists ++ [c] }
  | .plotMarker _ _ _ _ _ _ => { s with lines := s.lines ++ [c] }
  | .textLabel _ _ _ _ => { s with texts := s.texts ++ [c] }
  | .legendCall es => { s with legend := some es }

/-- One call of `animate`: clear the dynamic lists, install the new
projection (source lines 80–81) and the face colour (line 85), then
issue the draw calls; `none` models the uncaught `TypeError` raised on
a non-numeric magnitude. -/
def animate (qs : List Quake) (currentDate : String) (frame : ℕ)
    (s : AxesState) : Option AxesState :=
  match drawCalls qs currentDate frame with
  | none => none
  | some calls =>
    some (calls.foldl applyCall
      { clearDynamic s with
          projection := ⟨centralLongitude frame, centralLatitude⟩,
          facecolor := "black" })

/-- The number of elements in the five dynamic artist lists. -/
def dynCount (s : AxesState) : ℕ :=
  s.artists.length + s.collections.length + s.patches.length
    + s.lines.length + s.texts.length

/-- The axes state right after the figure setup (source lines 48–58):
empty artist lists, no legend, `Orthographic(central_longitude=0,
central_latitude=10)`, black face colour. -/
def initialState : AxesState :=
  { artists := [], collections := [], patches := [], lines := [],
    texts := [], legend := none, projection := ⟨0, 10⟩, facecolor := "black" }

/-!
Encoder configuration (source lines 165–173).
-/

/-- `interval=20` of `FuncAnimation`. -/
def animationIntervalMs : ℕ := 20

/-- `blit=False` of `FuncAnimation`. -/
def animationBlit : Bool := false

/-- `repeat=True` of `FuncAnimation`. -/
def animationRepeat : Bool := true

/-- The filename passed to `ani.save`. -/
def outputFilename : String := "rotating_earth_with_earthquakes.mp4"

/-- `writer='ffmpeg'` of `ani.save`. -/
def outputWriter : String := "ffmpeg"

/-- `fps=30` of `ani.save`. -/
def outputFps : ℕ := 30

/-- `dpi=150` of `ani.save`. -/
def outputDpi : ℕ := 150

/-- `bitrate=5000` of `ani.save`. -/
def outputBitrate : ℕ := 5000

/-- The frame indices the encoder feeds to `animate`: `frames=1200`
makes `FuncAnimation` iterate `range(1200)`. -/
def frameIndices : List ℕ := List.range animationFrames

/-- The frame sequence the encoder renders: `animate` applied to every
index of `frameIndices` (the renderer is state-independent, see
`animate_eq_renderFrame` below, so the shared-state threading of the
real loop produces these same frames). -/
def renderedFrames (qs : List Quake) (currentDate : String) (s : AxesState) :
    List (Option AxesState) :=
  frameIndices.map (fun f => animate qs currentDate f s)

/-!
Concrete sample inputs used by witnesses and counterexamples.
-/

/-- A well-formed feature with a numeric magnitude. -/
def sampleFeature : Json :=
  .obj [("properties", .obj [("mag", .num 5.0), ("place", .str "Sample Region")]),
        ("geometry", .obj [("coordinates", .arr [.num 25.0, .num 48.0, .num 10.0])])]

/-- A well-formed feed holding `sampleFeature`. -/
def sampleFeed : Json := .obj [("features", .arr [sampleFeature])]

/-- A feature that parses fine but carries `"mag": null`. -/
def nullMagFeature : Json :=
  .obj [("properties", .obj [("mag", .null), ("place", .str "Offshore")]),
        ("geometry", .obj [("coordinates", .arr [.num 10.0, .num 20.0])])]

/-- A feed holding `nullMagFeature`. -/
def nullMagFeed : Json := .obj [("features", .arr [nullMagFeature])]

/-- An axes state as left behind by a previous `animate` call: a stale
title in `texts` and an installed legend. -/
def staleState : AxesState :=
  { initialState with texts := [titleCall "stale"], legend := some legendEntries }

/-- The record built from `nullMagFeature` — the `null` magnitude is
stored verbatim. -/
def nullQuake : Quake := ⟨.null, .num 20.0, .num 10.0, .str "Offshore"⟩

/-- The two marker calls of one record, as a total function of a record
whose magnitude is numeric (used to spell out the marker block of the
draw-call sequence). -/
def markerPairSpec (q : Quake) : List DrawCall :=
  match q.magnitude with
  | .num m =>
      [ .plotMarker q.longitude q.latitude (quakeColor m) (markerSize m) 5 0.7,
        .plotMarker q.longitude q.latitude "white" (markerSize m / 3) 6 0.9 ]
  | _ => []

/-- The state `animate` leaves behind, as a function of the marker
calls, the date and the frame index alone. -/
def renderFrame (ms : List DrawCall) (currentDate : String) (frame : ℕ) : AxesState :=
  { artists := [oceanCall, landCall, coastlineCall],
    collections := [],
    patches := [boundaryCall, glowCall],
    lines := ms,
    texts := [titleCall currentDate],
    legend := some legendEntries,
    projection := ⟨centralLongitude frame, centralLatitude⟩,
    facecolor := "black" }

/-!
Helper lemmas.
-/

/-- Python float modulus is invariant under shifts by integer multiples
of the modulus. -/
theorem pymod_add_int_mul (a b : ℚ) (n : ℤ) (hb : b ≠ 0) :
    pymod (a + n * b) b = pymod a b := by
  unfold pymod
  have h : (a + (n : ℚ) * b) / b = a / b + (n : ℚ) := by
    field_simp
  rw [h, Int.floor_add_int]
  push_cast
  ring

/-- `lon0` is periodic with period 720 frames. -/
theorem lon0_add_720 (f : ℕ) : lon0 (f + 720) = lon0 f := by
  unfold lon0
  have h : ((f + 720 : ℕ) : ℚ) * rotDelta = (f : ℚ) * rotDelta + (-1 : ℤ) * 360 := by
    push_cast
    unfold rotDelta
    ring
  rw [h, pymod_add_int_mul _ _ _ (by norm_num)]

/-- Folding a list of marker calls just appends them to `lines`. -/
theorem foldl_markers : ∀ (ms : List DrawCall),
    (∀ c ∈ ms, c.isMarkerCall = true) →
    ∀ s : AxesState, ms.foldl applyCall s = { s with lines := s.lines ++ ms }
  | [], _, s => by simp
  | c :: rest, h, s => by
    have hc : c.isMarkerCall = true := h c (List.mem_cons_self c rest)
    have hrest : ∀ x ∈ rest, x.isMarkerCall = true :=
      fun x hx => h x (List.mem_cons_of_mem c hx)
    cases c with
    | plotMarker lon lat color msz z a =>
      rw [List.foldl_cons, foldl_markers rest hrest]
      simp [applyCall]
    | circlePatch cx cy r e lw al z => simp [DrawCall.isMarkerCall] at hc
    | mapFeature n fc ec lw z => simp [DrawCall.isMarkerCall] at hc
    | textLabel x y t z => simp [DrawCall.isMarkerCall] at hc
    | legendCall es => simp [DrawCall.isMarkerCall] at hc

/-- A record with a numeric magnitude yields exactly its two marker
calls. -/
theorem quakeMarkerCalls_of_num (q : Quake) (m : ℚ) (hm : q.magnitude = .num m) :
    quakeMarkerCalls q =
      some [ .plotMarker q.longitude q.latitude (quakeColor m) (markerSize m) 5 0.7,
             .plotMarker q.longitude q.latitude "white" (markerSize m / 3) 6 0.9 ] := by
  unfold quakeMarkerCalls
  rw [hm]
  simp [sizeOfMag, colorOfMag]

/-- Every call produced by `quakeMarkerCalls` is a marker call. -/
theorem quakeMarkerCalls_markers (q : Quake) (a : List DrawCall)
    (h : quakeMarkerCalls q = some a) : ∀ c ∈ a, c.isMarkerCall = true := by
  unfold quakeMarkerCalls at h
  cases hm : q.magnitude <;> rw [hm] at h <;>
    simp [sizeOfMag, colorOfMag] at h
  subst h
  intro c hc
  rcases List.mem_cons.mp hc with h1 | h2
  · subst h1; rfl
  · rcases List.mem_singleton.mp h2 with h3
    subst h3; rfl

/-- Every call produced by `allMarkerCalls` is a marker call. -/
theorem allMarkerCalls_markers : ∀ (qs : List Quake) (ms : List DrawCall),
    allMarkerCalls qs = some ms → ∀ c ∈ ms, c.isMarkerCall = true
  | [], ms, h => by
    simp [allMarkerCalls] at h
    subst h
    intro c hc
    simp at hc
  | q :: rest, ms, h => by
    unfold allMarkerCalls at h
    cases hq : quakeMarkerCalls q with
    | none => rw [hq] at h; exact absurd h (by simp)
    | some a =>
      cases hr : allMarkerCalls rest with
      | none => rw [hq, hr] at h; exact absurd h (by simp)
      | some b =>
        rw [hq, hr] at h
        injection h with h'
        subst h'
        intro c hc
        rcases List.mem_append.mp hc with hca | hcb
        · exact quakeMarkerCalls_markers q a hq c hca
        · exact allMarkerCalls_markers rest b hr c hcb

/-- When every magnitude is numeric enough for the marker loop,
`animate` ends in `renderFrame` regardless of the incoming state. -/
theorem animate_eq_renderFrame (qs : List Quake) (d : String) (f : ℕ)
    (s : AxesState) (ms : List DrawCall) (h : allMarkerCalls qs = some ms) :
    animate qs d f s = some (renderFrame ms d f) := by
  have hm : ∀ c ∈ ms, c.isMarkerCall = true := allMarkerCalls_markers qs ms h
  unfold animate drawCalls
  rw [h]
  simp only [List.foldl_append, List.foldl_cons, List.foldl_nil]
  rw [foldl_markers ms hm]
  simp [applyCall, clearDynamic, renderFrame, boundaryCall, glowCall,
        oceanCall, landCall, coastlineCall, titleCall, legendDrawCall]

/-- `animate` is independent of the incoming axes state: the clear phase
empties every list it will write to, and the legend slot — the one
field the clear phase keeps — is overwritten by the final `ax.legend`
call. -/
theorem animate_stateless (qs : List Quake) (d : String) (f : ℕ)
    (s₁ s₂ : AxesState) : animate qs d f s₁ = animate qs d f s₂ := by
  cases h : allMarkerCalls qs with
  | none => simp [animate, drawCalls, h]
  | some ms =>
    rw [animate_eq_renderFrame qs d f s₁ ms h,
        animate_eq_renderFrame qs d f s₂ ms h]

/-- A JSON value is a number exactly when it is a `num`. -/
theorem isNum_iff (j : Json) : j.isNum = true ↔ ∃ m : ℚ, j = .num m := by
  cases j <;> simp [Json.isNum]

/-- A record whose magnitude is numeric contributes exactly its
`markerPairSpec` calls. -/
theorem quakeMarkerCalls_eq_pair (q : Quake) (h : q.magnitude.isNum = true) :
    quakeMarkerCalls q = some (markerPairSpec q) := by
  obtain ⟨m, hm⟩ := (isNum_iff q.magnitude).mp h
  rw [quakeMarkerCalls_of_num q m hm]
  unfold markerPairSpec
  rw [hm]

/-- When every magnitude is numeric, the marker loop succeeds and emits
the records' marker pairs in record order. -/
theorem allMarkerCalls_eq : ∀ (qs : List Quake),
    (∀ q ∈ qs, q.magnitude.isNum = true) →
    allMarkerCalls qs = some (qs.map markerPairSpec).flatten
  | [], _ => rfl
  | q :: rest, h => by
    have hq := quakeMarkerCalls_eq_pair q (h q (List.mem_cons_self q rest))
    have hrest := allMarkerCalls_eq rest (fun x hx => h x (List.mem_cons_of_mem q hx))
    unfold allMarkerCalls
    rw [hq, hrest]
    simp

/-- A successful `parseQuake` returns exactly the four extracted
fields. -/
theorem parseQuake_fields (q : Json) (r : Quake) (h : parseQuake q = some r) :
    featMag q = some r.magnitude ∧ featLat q = some r.latitude ∧
    featLon q = some r.longitude ∧ featPlace q = some r.place := by
  unfold parseQuake at h
  cases hm : featMag q <;> cases hla : featLat q <;> cases hlo : featLon q <;>
    cases hpl : featPlace q <;> simp [hm, hla, hlo, hpl] at h
  subst h
  exact ⟨rfl, rfl, rfl, rfl⟩

/-- A feature on which all four access paths succeed parses. -/
theorem parseQuake_of_isSome (q : Json)
    (h1 : (featMag q).isSome = true) (h2 : (featLat q).isSome = true)
    (h3 : (featLon q).isSome = true) (h4 : (featPlace q).isSome = true) :
    (parseQuake q).isSome = true := by
  unfold parseQuake
  cases hm : featMag q <;> cases hla : featLat q <;> cases hlo : featLon q <;>
    cases hpl : featPlace q <;> simp_all

/-- The record loop succeeds on a list of parsable features, producing
one record per feature in order. -/
theorem parseQuakes_sound : ∀ (fs : List Json),
    (∀ q ∈ fs, (parseQuake q).isSome = true) →
    ∃ qs : List Quake, parseQuakes fs = some qs ∧ qs.length = fs.length ∧
      ∀ i (hi : i < fs.length) (hq : i < qs.length),
        parseQuake (fs.get ⟨i, hi⟩) = some (qs.get ⟨i, hq⟩)
  | [], _ => ⟨[], rfl, rfl, fun i hi => absurd hi (by simp)⟩
  | q :: rest, h => by
    have hq : (parseQuake q).isSome = true := h q (List.mem_cons_self q rest)
    obtain ⟨r, hr⟩ := Option.isSome_iff_exists.mp hq
    obtain ⟨qs, hqs, hlen, hnth⟩ := parseQuakes_sound rest
      (fun x hx => h x (List.mem_cons_of_mem q hx))
    refine ⟨r :: qs, ?_, by simp [hlen], ?_⟩
    · unfold parseQuakes
      rw [hr, hqs]
    · intro i hi hq2
      cases i with
      | zero => simpa using hr
      | succ n =>
        simp only [List.get_cons_succ]
        exact hnth n (by simpa using hi) (by simpa using hq2)

/-!
Claim theorems.
-/

/-- Claim C1, counterexample: the pre-offset rotation `lon0` computed at
frame 0 and at frame 720 does not differ by 360 degrees — Python's `%`
has already reduced both to the same value 0, so they differ by 0. -/
theorem C1_counterexample :
    lon0 0 = 0 ∧ lon0 720 = 0 ∧ |lon0 0 - lon0 720| ≠ 360 := by
  refine ⟨?_, ?_, ?_⟩ <;> norm_num [lon0, pymod, rotDelta]

/-- Claim C1 (amended): for every frame `f` the pre-offset rotation is
`(f * -0.5) mod 360` and the projection's central longitude offsets it
by the fixed 140-degree base; the unreduced rotation angles `f * -0.5`
at `f = 0` and `f = 720` differ by exactly 360 degrees (one full
revolution over 720 frames at 0.5 degrees per frame), so the computed
(mod-reduced) pre-offset rotations at those frames are equal. -/
theorem C1_rotation (f : ℕ) :
    lon0 f = pymod ((f : ℚ) * rotDelta) 360 ∧
    centralLongitude f = lon0 f + 140 ∧
    (0 : ℚ) * rotDelta - (720 : ℚ) * rotDelta = 360 ∧
    lon0 (f + 720) = lon0 f := by
  refine ⟨rfl, rfl, by norm_num [rotDelta], lon0_add_720 f⟩

/-- Claim C2, counterexample: over the animation's 1200 frames the
per-frame delta of -0.5 degrees accumulates to -600 degrees, not one
full 360-degree sweep, and the rotation longitude at frame 1200 is 120,
not back at its frame-0 value 0. -/
theorem C2_counterexample :
    animationFrames = 1200 ∧
    (animationFrames : ℚ) * rotDelta = -600 ∧
    |(animationFrames : ℚ) * rotDelta| ≠ 360 ∧
    lon0 animationFrames = 120 ∧ lon0 0 = 0 ∧
    lon0 animationFrames ≠ lon0 0 := by
  refine ⟨rfl, ?_, ?_, ?_, ?_, ?_⟩ <;>
    norm_num [lon0, pymod, rotDelta, animationFrames]

/-- Claim C2 (amended): the rotation longitude is a linear function of
frame index modulo 360 with period 720 frames — one full 360-degree
rotation every 720 frames; over the animation's 1200 frames the globe
therefore sweeps 600 degrees (one full rotation plus 240 degrees, i.e.
5/3 revolutions), not exactly one. -/
theorem C2_rotation (f : ℕ) :
    lon0 (f + 720) = lon0 f ∧
    |(720 : ℚ) * rotDelta| = 360 ∧
    (animationFrames : ℚ) * rotDelta = -600 ∧
    (animationFrames : ℚ) * |rotDelta| = 360 + 240 := by
  refine ⟨lon0_add_720 f, ?_, ?_, ?_⟩
  · norm_num [rotDelta]
  · norm_num [rotDelta, animationFrames]
  · rw [abs_of_nonpos (by norm_num [rotDelta] : rotDelta ≤ 0)]
    norm_num [rotDelta, animationFrames]

/-- Claim C3: whenever the fetch-and-parse pipeline fails (network
error, HTTP error body, malformed JSON or missing fields — all modelled
by the parse yielding `none`), `fetch_earthquake_data` raises nothing:
it prints the diagnostic notice and returns exactly the 3-element
fallback list with magnitude, latitude, longitude triples
(5.2, 35.0, -120.0), (6.1, -10.0, 160.0) and (4.8, 40.0, 30.0). -/
theorem C3_fallback (resp : Option Json) (h : resp.bind parseFeed = none) :
    fetchRun resp =
      ([ ⟨.num 5.2, .num 35.0, .num (-120.0), .str "Sample 1"⟩,
         ⟨.num 6.1, .num (-10.0), .num 160.0, .str "Sample 2"⟩,
         ⟨.num 4.8, .num 40.0, .num 30.0, .str "Sample 3"⟩ ], [failNotice]) ∧
    (fetch_earthquake_data resp).length = 3 := by
  cases resp with
  | none => exact ⟨rfl, rfl⟩
  | some data =>
    have hd : parseFeed data = none := by simpa using h
    simp [fetch_earthquake_data, fetchRun, hd, fallbackQuakes]

/-- Witness for C3 at the concrete input `none` (network failure). -/
theorem C3_witness :
    fetchRun none =
      ([ ⟨.num 5.2, .num 35.0, .num (-120.0), .str "Sample 1"⟩,
         ⟨.num 6.1, .num (-10.0), .num 160.0, .str "Sample 2"⟩,
         ⟨.num 4.8, .num 40.0, .num 30.0, .str "Sample 3"⟩ ], [failNotice]) ∧
    (fetch_earthquake_data none).length = 3 :=
  C3_fallback none rfl

/-- Claim C4: for every valid feed response — an object whose
`features` array has entries on which the four access paths
`properties.mag`, `geometry.coordinates[1]`, `geometry.coordinates[0]`
and `properties.place` all succeed — the fetch returns exactly one
record per input feature, in the same order, with magnitude, latitude,
longitude and place preserved verbatim, and prints nothing. -/
theorem C4_preserves (data : Json) (fs : List Json)
    (hfeat : data.getField "features" = some (.arr fs))
    (hvalid : ∀ q ∈ fs, (featMag q).isSome = true ∧ (featLat q).isSome = true ∧
        (featLon q).isSome = true ∧ (featPlace q).isSome = true) :
    ∃ qs : List Quake, fetchRun (some data) = (qs, []) ∧
      qs.length = fs.length ∧
      ∀ i (hi : i < fs.length) (hq : i < qs.length),
        featMag (fs.get ⟨i, hi⟩) = some ((qs.get ⟨i, hq⟩).magnitude) ∧
        featLat (fs.get ⟨i, hi⟩) = some ((qs.get ⟨i, hq⟩).latitude) ∧
        featLon (fs.get ⟨i, hi⟩) = some ((qs.get ⟨i, hq⟩).longitude) ∧
        featPlace (fs.get ⟨i, hi⟩) = some ((qs.get ⟨i, hq⟩).place) := by
  obtain ⟨qs, hqs, hlen, hnth⟩ := parseQuakes_sound fs
    (fun q hq => parseQuake_of_isSome q (hvalid q hq).1 (hvalid q hq).2.1
      (hvalid q hq).2.2.1 (hvalid q hq).2.2.2)
  refine ⟨qs, ?_, hlen, ?_⟩
  · simp [fetchRun, parseFeed, hfeat, hqs]
  · intro i hi hq
    exact parseQuake_fields _ _ (hnth i hi hq)

/-- Witness for C4 at a concrete one-feature feed. -/
theorem C4_witness :
    ∃ qs : List Quake, fetchRun (some sampleFeed) = (qs, []) ∧
      qs.length = ([sampleFeature] : List Json).length ∧
      ∀ i (hi : i < ([sampleFeature] : List Json).length) (hq : i < qs.length),
        featMag (([sampleFeature] : List Json).get ⟨i, hi⟩) = some ((qs.get ⟨i, hq⟩).magnitude) ∧
        featLat (([sampleFeature] : List Json).get ⟨i, hi⟩) = some ((qs.get ⟨i, hq⟩).latitude) ∧
        featLon (([sampleFeature] : List Json).get ⟨i, hi⟩) = some ((qs.get ⟨i, hq⟩).longitude) ∧
        featPlace (([sampleFeature] : List Json).get ⟨i, hi⟩) = some ((qs.get ⟨i, hq⟩).place) :=
  C4_preserves sampleFeed [sampleFeature] rfl (by decide)

/-- Claim C5: the marker colour is a pure function of magnitude alone
with half-open boundaries at exactly 5.0 and 6.0 — below 5 yellow, in
[5, 6) orange, at or above 6 red — and it is this function the renderer
evaluates on every record's stored magnitude. -/
theorem C5_color (m : ℚ) :
    colorOfMag (Json.num m) = some (quakeColor m) ∧
    (quakeColor m = "yellow" ↔ m < 5) ∧
    (quakeColor m = "orange" ↔ 5 ≤ m ∧ m < 6) ∧
    (quakeColor m = "red" ↔ 6 ≤ m) := by
  have hyo : ("yellow" : String) ≠ "orange" := by decide
  have hyr : ("yellow" : String) ≠ "red" := by decide
  have hor : ("orange" : String) ≠ "red" := by decide
  refine ⟨rfl, ?_⟩
  unfold quakeColor
  split_ifs with h1 h2
  · exact ⟨⟨fun _ => by linarith, fun _ => rfl⟩,
           ⟨fun hc => absurd hc hyo, fun hc => absurd hc.1 (not_le.mpr (by linarith))⟩,
           ⟨fun hc => absurd hc hyr, fun hc => absurd hc (not_le.mpr (by linarith))⟩⟩
  · exact ⟨⟨fun hc => absurd hc hyo.symm, fun hm5 => (h1 (by linarith)).elim⟩,
           ⟨fun _ => ⟨by linarith [not_lt.mp h1], by linarith⟩, fun _ => rfl⟩,
           ⟨fun hc => absurd hc hor, fun h6 => absurd h2 (not_lt.mpr (by linarith))⟩⟩
  · exact ⟨⟨fun hc => absurd hc hyr.symm, fun hm5 => (h1 (by linarith)).elim⟩,
           ⟨fun hc => absurd hc hor.symm, fun hc => (h2 (by linarith [hc.2])).elim⟩,
           ⟨fun _ => by linarith [not_lt.mp h2], fun _ => rfl⟩⟩

/-- Witness for C5 at the concrete magnitude 5.5. -/
theorem C5_witness : quakeColor 5.5 = "orange" :=
  (C5_color 5.5).2.2.1.mpr ⟨by norm_num, by norm_num⟩

/-- Claim C6: the outer marker size is `max(5, mag * 8) / 10`, which is
monotonically non-decreasing in the magnitude and never below the floor
1/2; the inner white dot of a record is drawn at exactly one third of
the outer size. -/
theorem C6_size :
    (∀ m : ℚ, markerSize m = max 5 (m * 8) / 10) ∧
    (∀ m₁ m₂ : ℚ, m₁ ≤ m₂ → markerSize m₁ ≤ markerSize m₂) ∧
    (∀ m : ℚ, 1 / 2 ≤ markerSize m) ∧
    (∀ (q : Quake) (m : ℚ), q.magnitude = Json.num m →
      quakeMarkerCalls q =
        some [ .plotMarker q.longitude q.latitude (quakeColor m) (markerSize m) 5 0.7,
               .plotMarker q.longitude q.latitude "white" (markerSize m / 3) 6 0.9 ]) := by
  refine ⟨fun m => rfl, ?_, ?_, fun q m hm => quakeMarkerCalls_of_num q m hm⟩
  · intro m₁ m₂ h
    unfold markerSize
    have hmax : max 5 (m₁ * 8) ≤ max 5 (m₂ * 8) := max_le_max le_rfl (by linarith)
    linarith
  · intro m
    unfold markerSize
    have h5 : (5 : ℚ) ≤ max 5 (m * 8) := le_max_left _ _
    linarith

/-- Witness for C6: monotonicity and the floor evaluated at concrete
magnitudes 0 and 6. -/
theorem C6_witness : markerSize 0 ≤ markerSize 6 ∧ 1 / 2 ≤ markerSize 0 :=
  ⟨C6_size.2.1 0 6 (by norm_num), C6_size.2.2.1 0⟩

/-- Claim C7, counterexample: the clear phase at the top of `animate`
does not discard every previously drawn dynamic element — the legend
installed by a prior call lives in the separate `ax.legend_` slot, which
the removal loops over `artists`, `collections`, `patches`, `lines` and
`texts` never visit, so it survives the clear phase of the next call. -/
theorem C7_counterexample :
    staleState.legend = some legendEntries ∧
    (clearDynamic staleState).legend = some legendEntries ∧
    (clearDynamic staleState).legend ≠ none := by
  refine ⟨rfl, rfl, ?_⟩
  intro h
  exact Option.noConfusion h

/-- Claim C7 (amended): every call to the renderer begins by removing
every element of the five artist lists (map features, markers, boundary
circles and the title) while keeping the legend slot, which the call
replaces when it installs the new legend; consequently the state after
a call is independent of the state before it, and the dynamic-artifact
count after a call is moreover independent of the frame index — so in
any run the count is identical before any two consecutive calls from
the second call onward (the states before calls at frames f and f+1
are the outputs of the calls at frames f-1 and f, compared by the last
conjunct at the frame pair f-1, f), with no leftover artifacts from a
prior call. -/
theorem C7_clear_stateless :
    (∀ s : AxesState, (clearDynamic s).artists = [] ∧
      (clearDynamic s).collections = [] ∧ (clearDynamic s).patches = [] ∧
      (clearDynamic s).lines = [] ∧ (clearDynamic s).texts = [] ∧
      (clearDynamic s).legend = s.legend) ∧
    (∀ (qs : List Quake) (d : String) (f : ℕ) (s₁ s₂ : AxesState),
      animate qs d f s₁ = animate qs d f s₂) ∧
    (∀ (qs : List Quake) (d : String) (f₁ f₂ : ℕ) (s₁ s₂ : AxesState),
      (animate qs d f₁ s₁).map dynCount = (animate qs d f₂ s₂).map dynCount) := by
  refine ⟨fun s => ⟨rfl, rfl, rfl, rfl, rfl, rfl⟩, animate_stateless, ?_⟩
  intro qs d f₁ f₂ s₁ s₂
  cases h : allMarkerCalls qs with
  | none => simp [animate, drawCalls, h]
  | some ms =>
    rw [animate_eq_renderFrame qs d f₁ s₁ ms h,
        animate_eq_renderFrame qs d f₂ s₂ ms h]
    rfl

/-- Claim C8, counterexample: the first draw call of a frame is the
boundary ring (zorder 10), not the outer glow ring (zorder 9), and the
third call is the ocean fill with zorder 2 — so the call sequence is
neither the claimed order nor back-to-front. -/
theorem C8_counterexample :
    (drawCalls fallbackQuakes "January 01, 2026" 0).map (fun L => L.take 3) =
      some [boundaryCall, glowCall, oceanCall] ∧
    boundaryCall ≠ glowCall ∧
    boundaryCall.zorderOf = some 10 ∧
    glowCall.zorderOf = some 9 ∧
    oceanCall.zorderOf = some 2 := by
  refine ⟨rfl, ?_, rfl, rfl, rfl⟩
  intro h
  injection h with h1 h2 h3 h4 h5 h6 h7
  exact absurd h3 (by norm_num)

/-- Claim C8 (amended): in every frame the renderer issues its draw
calls in the source order boundary ring, glow ring, ocean fill, land
fill, coastlines, the two marker calls of each record in record order,
title label, three-entry magnitude legend; visual stacking is governed
by the explicit zorders (ocean 2, land 3, coastlines 4, outer markers
5, inner markers 6, glow 9, boundary and title 10), not by call
order. -/
theorem C8_draw_order (f : ℕ) (qs : List Quake) (d : String)
    (h : ∀ q ∈ qs, q.magnitude.isNum = true) :
    drawCalls qs d f =
      some ([boundaryCall, glowCall, oceanCall, landCall, coastlineCall]
            ++ (qs.map markerPairSpec).flatten
            ++ [titleCall d, legendDrawCall]) := by
  unfold drawCalls
  rw [allMarkerCalls_eq qs h]

/-- Witness for C8 at the fallback records and frame 0. -/
theorem C8_witness :
    drawCalls fallbackQuakes "January 01, 2026" 0 =
      some ([boundaryCall, glowCall, oceanCall, landCall, coastlineCall]
            ++ (fallbackQuakes.map markerPairSpec).flatten
            ++ [titleCall "January 01, 2026", legendDrawCall]) :=
  C8_draw_order 0 fallbackQuakes "January 01, 2026" (by decide)

/-- Claim C9: the encoder drives the renderer for exactly 1200 frames
(one rendered frame per index of `range(1200)`) and writes a single
output file named rotating_earth_with_earthquakes.mp4 through the
ffmpeg backend at 30 frames per second, bitrate 5000 and 150 dpi;
1200 frames at 30 fps is 40 seconds of video. -/
theorem C9_encoder :
    animationFrames = 1200 ∧
    outputFilename = "rotating_earth_with_earthquakes.mp4" ∧
    outputWriter = "ffmpeg" ∧
    outputFps = 30 ∧
    outputDpi = 150 ∧
    outputBitrate = 5000 ∧
    frameIndices.length = 1200 ∧
    (∀ (qs : List Quake) (d : String) (s : AxesState),
      (renderedFrames qs d s).length = animationFrames) ∧
    (animationFrames : ℚ) / (outputFps : ℚ) = 40 := by
  refine ⟨rfl, rfl, rfl, rfl, rfl, rfl, ?_, ?_, ?_⟩
  · simp [frameIndices, animationFrames]
  · intro qs d s
    simp [renderedFrames, frameIndices]
  · norm_num [animationFrames, outputFps]

/-- Claim C10: a feed that parses successfully but carries a null
magnitude is returned by `fetch_earthquake_data` with the null stored
verbatim (the fallback branch is not taken), and the renderer is
undefined on that record — both the size arithmetic and the colour
comparison fail on the null magnitude, so the frame aborts instead of
skipping or defaulting the record. -/
theorem C10_null_magnitude :
    fetchRun (some nullMagFeed) = ([nullQuake], []) ∧
    nullQuake.magnitude = Json.null ∧
    fetch_earthquake_data (some nullMagFeed) ≠ fallbackQuakes ∧
    colorOfMag Json.null = none ∧
    sizeOfMag Json.null = none ∧
    quakeMarkerCalls nullQuake = none ∧
    animate (fetch_earthquake_data (some nullMagFeed)) "January 01, 2026" 0
      initialState = none := by
  refine ⟨rfl, rfl, ?_, rfl, rfl, rfl, rfl⟩
  intro h
  exact absurd (congrArg List.length h) (by decide)

/-- Witness for C1 at the concrete frame 0. -/
theorem C1_witness :
    lon0 (0 + 720) = lon0 0 ∧ centralLongitude 0 = lon0 0 + 140 :=
  ⟨(C1_rotation 0).2.2.2, (C1_rotation 0).2.1⟩

/-- Witness for C2 at the concrete frame 0. -/
theorem C2_witness :
    lon0 (0 + 720) = lon0 0 ∧ (animationFrames : ℚ) * rotDelta = -600 :=
  ⟨(C2_rotation 0).1, (C2_rotation 0).2.2.1⟩

/-- Witness for C7 at two concrete distinct incoming states, and at the
concrete consecutive frame pair 0, 1. -/
theorem C7_witness :
    animate fallbackQuakes "January 01, 2026" 0 initialState =
      animate fallbackQuakes "January 01, 2026" 0 staleState ∧
    (animate fallbackQuakes "January 01, 2026" 0 initialState).map dynCount =
      (animate fallbackQuakes "January 01, 2026" 1 staleState).map dynCount :=
  ⟨C7_clear_stateless.2.1 fallbackQuakes "January 01, 2026" 0 initialState staleState,
   C7_clear_stateless.2.2 fallbackQuakes "January 01, 2026" 0 1 initialState staleState⟩

/-- Witness for C9 at concrete records, date and state. -/
theorem C9_witness :
    (renderedFrames fallbackQuakes "January 01, 2026" initialState).length =
      animationFrames :=
  C9_encoder.2.2.2.2.2.2.2.1 fallbackQuakes "January 01, 2026" initialState
